import Mathlib

/-!
Shallow embedding of `leetcli/cli.py`, a LeetCode command-line client:
the on-disk cache layer (`load_cache` / `save_cache`), the catalog and
detail fetchers with their GraphQL transport and REST fallback
(`post_graphql`, `fetch_problem_list`, `fetch_problem_list_rest`,
`fetch_question`), the query resolver (`normalize_text`, `is_number`,
`find_by_id`, `find_matches`, `resolve_slug`) and the HTML-to-text
converter (`HtmlToText` / `html_to_text`), together with theorems
settling the specification claims about them.

Machine-level conventions: Python strings are modelled over ASCII
(whitespace, lowercasing and digit tests are the ASCII cases of the
Python predicates); JSON numbers are modelled as integers, which is all
this program ever stores; the network is an oracle mapping each request
to the response the remote side produces for it; time is an explicit
integer parameter standing for `time.time()`.
-/

/-- JSON values as produced by Python's `json.loads` (numbers restricted
to integers, which is all this program ever stores). -/
inductive Json where
  | null
  | bool (b : Bool)
  | num (n : Int)
  | str (s : String)
  | arr (elems : List Json)
  | obj (fields : List (String × Json))

/-- Contents of one on-disk cache file at the granularity `json.loads`
sees them: either text that fails to parse, or a parsed JSON value. -/
inductive FileContent where
  | badJson
  | json (payload : Json)

/-- The cache directory: one record per file name. -/
abbrev Files := List (String × FileContent)

/-- Python exceptions the fetch and cache layers can raise or propagate. -/
inductive PyErr where
  | urlError
  | runtimeError
  | attributeError
deriving DecidableEq, Repr

/-- Look a file up by name (`path.exists()` plus `path.read_text()`). -/
def lookupFile (files : Files) (name : String) : Option FileContent :=
  (files.find? (fun p => p.1 == name)).map (fun p => p.2)

/-- Write a file, fully overwriting any previous record of that name. -/
def setFile (files : Files) (name : String) (c : FileContent) : Files :=
  match files with
  | [] => [(name, c)]
  | (n, v) :: rest => if n == name then (n, c) :: rest else (n, v) :: setFile rest name c

/-- Python `payload.get(key)` on a parsed JSON object: `None` (here
`Json.null`) when the key is absent. -/
def pyGet (fields : List (String × Json)) (key : String) : Json :=
  match fields.find? (fun p => p.1 == key) with
  | some p => p.2
  | none => Json.null

/-- The check `isinstance(x, (int, float))`; Python `bool` is a subclass
of `int`, so JSON booleans pass it as well. -/
def isNumTimestamp : Json → Bool
  | Json.num _ => true
  | Json.bool _ => true
  | _ => false

/-- Numeric value of a JSON timestamp accepted by `isNumTimestamp`. -/
def tsVal : Json → Int
  | Json.num n => n
  | Json.bool b => if b then 1 else 0
  | _ => 0

def LIST_TTL_SECONDS : Int := 24 * 60 * 60

def QUESTION_TTL_SECONDS : Int := 7 * 24 * 60 * 60

/-- `load_cache(name, ttl_seconds)`: a missing file and unparsable JSON
are misses (`None`, here `Json.null`); on a parsed object the stored
`fetched_at` must be numeric and fresh, and the result is
`payload.get("data")`.  On a parsed value that is not an object, the
attribute access `payload.get` raises `AttributeError`. -/
def load_cache (files : Files) (name : String) (ttl_seconds : Int) (now : Int) :
    Except PyErr Json :=
  match lookupFile files name with
  | none => Except.ok Json.null
  | some FileContent.badJson => Except.ok Json.null
  | some (FileContent.json payload) =>
    match payload with
    | Json.obj fields =>
      let fetched_at := pyGet fields "fetched_at"
      if isNumTimestamp fetched_at then
        if now - tsVal fetched_at > ttl_seconds then Except.ok Json.null
        else Except.ok (pyGet fields "data")
      else Except.ok Json.null
    | _ => Except.error PyErr.attributeError

/-- `save_cache(name, data)`: write `{"fetched_at": int(time.time()),
"data": data}`, fully overwriting any prior record. -/
def save_cache (files : Files) (name : String) (data : Json) (now : Int) : Files :=
  setFile files name
    (FileContent.json (Json.obj [("fetched_at", Json.num now), ("data", data)]))

/-- Python truthiness of a JSON value (the `if cached:` test). -/
def jsonTruthy : Json → Bool
  | Json.null => false
  | Json.bool b => b
  | Json.num n => n != 0
  | Json.str s => !s.isEmpty
  | Json.arr l => !l.isEmpty
  | Json.obj l => !l.isEmpty

/-- Outcome of one HTTP round trip to the GraphQL endpoint, as seen by
`post_graphql`: a transport failure or timeout (`urllib.error.URLError`),
a non-2xx status (`urllib.error.HTTPError`), a 2xx body whose JSON
carries an `"errors"` key, or a well-formed payload. -/
inductive GqlResp (α : Type) where
  | transportFail
  | httpError (code : Nat) (body : String)
  | errorsPayload (errs : Json)
  | ok (payload : α)

/-- `post_graphql`: an `HTTPError` is re-raised as `RuntimeError`, an
`"errors"` payload raises `RuntimeError`, a transport failure propagates
as `URLError`, and a well-formed response yields `data["data"]`. -/
def post_graphql {α : Type} : GqlResp α → Except PyErr α
  | GqlResp.transportFail => Except.error PyErr.urlError
  | GqlResp.httpError _ _ => Except.error PyErr.runtimeError
  | GqlResp.errorsPayload _ => Except.error PyErr.runtimeError
  | GqlResp.ok p => Except.ok p

/-- One `stat_status_pairs` element of the REST snapshot, with the
`stat` sub-object's fields already coerced to strings as by
`str(stat.get(...))`; `level` is `difficulty["level"]`. -/
structure RestEntry where
  question_id : String
  frontend_question_id : String
  question__title : String
  question__title_slug : String
  level : Int
  paid_only : Bool
deriving DecidableEq, Repr

/-- Normalization of one REST entry into the GraphQL entry shape, as in
`fetch_problem_list_rest`: levels 1/2/3 map to Easy/Medium/Hard and
anything else to Unknown. -/
def rest_normalize (e : RestEntry) : Json :=
  Json.obj
    [ ("questionId", Json.str e.question_id),
      ("questionFrontendId", Json.str e.frontend_question_id),
      ("title", Json.str e.question__title),
      ("titleSlug", Json.str e.question__title_slug),
      ("difficulty", Json.str
        (if e.level = 1 then "Easy"
         else if e.level = 2 then "Medium"
         else if e.level = 3 then "Hard"
         else "Unknown")),
      ("paidOnly", Json.bool e.paid_only) ]

/-- `fetch_problem_list_rest()`: a single GET of the snapshot URL; any
error raised there propagates, a successful payload is normalized. -/
def fetch_problem_list_rest (resp : Except PyErr (List RestEntry)) :
    Except PyErr (List Json) :=
  match resp with
  | Except.error e => Except.error e
  | Except.ok payload => Except.ok (payload.map rest_normalize)

/-- The `while True` pagination loop of `fetch_problem_list`: page `k`
is the request with `skip = 100 * k`; the loop accumulates entries and
breaks when `len(all_items) >= total or not items`.  The result pairs
the loop outcome with the number of page requests issued; `none` means
the given fuel did not suffice (the Python loop would still be
running). -/
def fetchLoop (pages : Nat → GqlResp (Int × List Json)) :
    Nat → Nat → List Json → Option (Except PyErr (List Json) × Nat)
  | 0, _, _ => none
  | fuel + 1, page, all_items =>
    match post_graphql (pages page) with
    | Except.error e => some (Except.error e, 1)
    | Except.ok (total, items) =>
      let all_items' := all_items ++ items
      if total ≤ (all_items'.length : Int) ∨ items.isEmpty then
        some (Except.ok all_items', 1)
      else
        match fetchLoop pages fuel (page + 1) all_items' with
        | none => none
        | some (r, n) => some (r, n + 1)

/-- `fetch_problem_list()`: cache check under `"problem_list.json"` with
the 24-hour TTL (a Python-falsy cached value fails `if cached:`), then
the pagination loop; only `RuntimeError` from the loop is caught and
routed to the REST fallback, any other exception propagates; the cache
is written exactly before a successful return.  The result carries the
returned value or exception, the number of GraphQL page requests, the
number of REST requests, and the final cache state. -/
def fetch_problem_list (files : Files) (now : Int)
    (pages : Nat → GqlResp (Int × List Json)) (rest : Except PyErr (List RestEntry))
    (fuel : Nat) : Option (Except PyErr Json × Nat × Nat × Files) :=
  match load_cache files "problem_list.json" LIST_TTL_SECONDS now with
  | Except.error e => some (Except.error e, 0, 0, files)
  | Except.ok cached =>
    if jsonTruthy cached then some (Except.ok cached, 0, 0, files)
    else
      match fetchLoop pages fuel 0 [] with
      | none => none
      | some (Except.ok all_items, n) =>
        some (Except.ok (Json.arr all_items), n, 0,
          save_cache files "problem_list.json" (Json.arr all_items) now)
      | some (Except.error PyErr.runtimeError, n) =>
        match fetch_problem_list_rest rest with
        | Except.error e => some (Except.error e, n, 1, files)
        | Except.ok items =>
          some (Except.ok (Json.arr items), n, 1,
            save_cache files "problem_list.json" (Json.arr items) now)
      | some (Except.error e, n) => some (Except.error e, n, 0, files)

/-- `fetch_question(slug)`: cache check under `"question_" + slug +
".json"` with the 7-day TTL, then a single detail query whose errors
propagate directly (no fallback); the cache is written only on success.
The result carries the value or exception, the number of network
requests, and the final cache state. -/
def fetch_question (files : Files) (now : Int) (resp : GqlResp Json) (slug : String) :
    Except PyErr Json × Nat × Files :=
  let cache_name := "question_" ++ slug ++ ".json"
  match load_cache files cache_name QUESTION_TTL_SECONDS now with
  | Except.error e => (Except.error e, 0, files)
  | Except.ok cached =>
    if jsonTruthy cached then (Except.ok cached, 0, files)
    else
      match post_graphql resp with
      | Except.error e => (Except.error e, 1, files)
      | Except.ok question => (Except.ok question, 1, save_cache files cache_name question now)

/-- A server holding a fixed finite snapshot `entries`, serving
100-entry pages in order, whose reported total `tot k` is arbitrary and
may be misreported on every page. -/
def snapshotPages (entries : List Json) (tot : Nat → Int) :
    Nat → GqlResp (Int × List Json) :=
  fun k => GqlResp.ok (tot k, (entries.drop (100 * k)).take 100)

/-- ASCII whitespace, the characters Python's `str.split`, `str.strip`
and the `\s` regex class treat as whitespace. -/
def pyIsSpace (c : Char) : Bool :=
  c == ' ' || c == '\t' || c == '\n' || c == '\r' || c == '\x0b' || c == '\x0c'

/-- Strip of a character list: drop whitespace from both ends. -/
def pyStripL (l : List Char) : List Char :=
  ((l.dropWhile pyIsSpace).reverse.dropWhile pyIsSpace).reverse

/-- Python `str.strip()`. -/
def pyStrip (s : String) : String := String.mk (pyStripL s.toList)

/-- Worker for `pyWords`: `cur` holds the current word reversed. -/
def pyWordsGo (cur : List Char) : List Char → List (List Char)
  | [] => if cur.isEmpty then [] else [cur.reverse]
  | c :: rest =>
    if pyIsSpace c then
      if cur.isEmpty then pyWordsGo [] rest else cur.reverse :: pyWordsGo [] rest
    else pyWordsGo (c :: cur) rest

/-- Python `str.split()` with no separator: the maximal
whitespace-separated words, with no empty words. -/
def pyWords (l : List Char) : List (List Char) := pyWordsGo [] l

/-- Interleave single spaces between words (`" ".join(words)`). -/
def joinL : List (List Char) → List Char
  | [] => []
  | [w] => w
  | w :: v :: rest => w ++ ' ' :: joinL (v :: rest)

/-- Python `" ".join(s.split())`: collapse internal whitespace runs to
single spaces and drop leading and trailing whitespace. -/
def pySplitJoin (s : String) : String := String.mk (joinL (pyWords s.toList))

/-- Python `re.sub(r"\s+", " ", s)`: replace each maximal whitespace run
by a single space. -/
def collapseRuns : List Char → List Char
  | [] => []
  | [c] => if pyIsSpace c then [' '] else [c]
  | c :: d :: rest =>
    if pyIsSpace c && pyIsSpace d then collapseRuns (d :: rest)
    else (if pyIsSpace c then ' ' else c) :: collapseRuns (d :: rest)

/-- `normalize_text(text)`: `re.sub(r"\s+", " ", text.strip().lower())`. -/
def normalize_text (text : String) : String :=
  String.mk (collapseRuns ((pyStripL text.toList).map Char.toLower))

/-- `is_number(text)`: Python `text.isdigit()` — nonempty and all
digits. -/
def is_number (text : String) : Bool :=
  !text.isEmpty && text.toList.all Char.isDigit

/-- One catalog entry in the GraphQL shape consumed by the resolver. -/
structure Entry where
  questionId : String
  questionFrontendId : String
  title : String
  titleSlug : String
  difficulty : String
  paidOnly : Bool
deriving DecidableEq, Repr

/-- Python substring containment `needle in hay`. -/
def strContains (hay needle : List Char) : Bool :=
  match hay with
  | [] => needle.isEmpty
  | c :: rest => needle.isPrefixOf (c :: rest) || strContains rest needle

/-- `find_by_id(items, frontend_id)`: first entry, in catalog order,
whose `questionFrontendId` equals the query. -/
def find_by_id (items : List Entry) (frontend_id : String) : Option Entry :=
  items.find? (fun item => item.questionFrontendId == frontend_id)

/-- `find_matches(items, query)`: all entries, in catalog order, whose
normalized title or slug contains the normalized query. -/
def find_matches (items : List Entry) (query : String) : List Entry :=
  let q := normalize_text query
  items.filter (fun item =>
    strContains (normalize_text item.title).toList q.toList ||
    strContains (normalize_text item.titleSlug).toList q.toList)

/-- `resolve_slug(query, items)`: the pair `(slug, matches)` returned by
the resolver — `(some slug, none)` for a unique resolution,
`(none, some ms)` for an ambiguous one, `(none, none)` for not found. -/
def resolve_slug (query : String) (items : List Entry) :
    Option String × Option (List Entry) :=
  if is_number query then
    match find_by_id items query with
    | some item => (some item.titleSlug, none)
    | none => (none, none)
  else if query.toList.contains '-' && !(query.toList.contains ' ') then
    (some (pyStrip query), none)
  else
    match find_matches items query with
    | [] => (none, none)
    | [m] => (some m.titleSlug, none)
    | ms => (none, some ms)

/-- Markup events delivered by Python's `html.parser` to `HtmlToText`:
`handle_data`, `handle_starttag`, `handle_endtag` (a self-closing tag
delivers a start and an end event). -/
inductive HEvent where
  | text (s : String)
  | startTag (name : String)
  | endTag (name : String)
deriving DecidableEq, Repr

/-- Characters allowed in a tag name after the leading letter
(`tagfind_tolerant` of Python's html.parser). -/
def tagNameChar (c : Char) : Bool :=
  !(c == '\t' || c == '\n' || c == '\r' || c == '\x0c' || c == ' ' ||
    c == '/' || c == '>' || c == '\x00')

/-- Split at the first `>`: the text before it and the text after it,
or `none` when there is no `>` left. -/
def splitAtGt (l : List Char) : Option (List Char × List Char) :=
  let inside := l.takeWhile (fun c => c != '>')
  match l.dropWhile (fun c => c != '>') with
  | [] => none
  | _ :: rest => some (inside, rest)

/-- Parse the markup construct following a `<`.  This models Python
html.parser tokenization for the fragment subset this program receives:
plain start tags (no quoted `>` inside attributes), `</…>` end tags,
and `<!…>` or `<?…>` constructs consumed without events; a `<` that
opens no construct is emitted as text data, and a construct left
unterminated at end of input stays buffered and produces nothing,
because `feed` is never followed by `close`. -/
def parseTag (l : List Char) : List HEvent × List Char :=
  match l with
  | [] => ([], [])
  | c :: cs =>
    if c.isAlpha then
      let nameChars := c :: cs.takeWhile tagNameChar
      match splitAtGt (cs.dropWhile tagNameChar) with
      | none => ([], [])
      | some (inside, rest) =>
        let name := String.mk (nameChars.map Char.toLower)
        if inside.getLast? == some '/' then
          ([HEvent.startTag name, HEvent.endTag name], rest)
        else ([HEvent.startTag name], rest)
    else if c == '/' then
      match cs with
      | [] => ([], [])
      | d :: ds =>
        if d.isAlpha then
          let nameChars := d :: ds.takeWhile tagNameChar
          match splitAtGt (ds.dropWhile tagNameChar) with
          | none => ([], [])
          | some (_, rest) => ([HEvent.endTag (String.mk (nameChars.map Char.toLower))], rest)
        else
          match splitAtGt cs with
          | none => ([], [])
          | some (_, rest) => ([], rest)
    else if c == '!' || c == '?' then
      match splitAtGt cs with
      | none => ([], [])
      | some (_, rest) => ([], rest)
    else ([HEvent.text "<"], c :: cs)

/-- Emit the pending text accumulator (held reversed) as one data
event, as html.parser delivers the text between two constructs in one
`handle_data` call. -/
def flushAcc (acc : List Char) : List HEvent :=
  if acc.isEmpty then [] else [HEvent.text (String.mk acc.reverse)]

/-- Tokenizer driver.  Each step consumes at least one character, so
fuel exceeding the input length never runs out. -/
def tokGo : Nat → List Char → List Char → List HEvent
  | 0, _, _ => []
  | fuel + 1, acc, l =>
    match l with
    | [] => flushAcc acc
    | c :: rest =>
      if c == '<' then
        flushAcc acc ++
          (let pr := parseTag rest
           pr.1 ++ tokGo fuel [] pr.2)
      else tokGo fuel (c :: acc) rest

/-- Event stream Python's html.parser delivers for the fragment `h`
(`parser.feed(h)` with no `close`), for fragments without character
references (`&…;`), comments or declarations. -/
def tokenize (h : String) : List HEvent :=
  tokGo (h.toList.length + 1) [] h.toList

/-- Mutable state of the `HtmlToText` visitor. -/
structure HState where
  chunks : List String
  in_pre : Bool
  pending_space : Bool
deriving Repr

def initState : HState := { chunks := [], in_pre := false, pending_space := false }

/-- `self._append(text)`. -/
def appendChunk (st : HState) (piece : String) : HState :=
  { st with chunks := st.chunks ++ [piece] }

/-- `self._newline()`: force a newline boundary unless the output is
empty or already ends with a newline (`chunks[-1].endswith("\n")`,
checked on the last character of the last chunk). -/
def newline (st : HState) : HState :=
  match st.chunks.getLast? with
  | none => st
  | some lastChunk =>
    if lastChunk.toList.getLast? == some '\n' then st
    else { st with chunks := st.chunks ++ ["\n"], pending_space := false }

/-- `HtmlToText.handle_starttag`. -/
def handle_starttag (st : HState) (tag : String) : HState :=
  if tag == "p" || tag == "br" then newline st
  else if tag == "pre" then { newline st with in_pre := true }
  else if tag == "code" && !st.in_pre then appendChunk st "`"
  else if tag == "ul" || tag == "ol" then newline st
  else if tag == "li" then appendChunk (newline st) "- "
  else st

/-- `HtmlToText.handle_endtag`. -/
def handle_endtag (st : HState) (tag : String) : HState :=
  if tag == "pre" then { newline st with in_pre := false }
  else if tag == "code" && !st.in_pre then appendChunk st "`"
  else if tag == "p" || tag == "br" then newline st
  else st

/-- `HtmlToText.handle_data`: verbatim inside `pre`; otherwise collapse
whitespace, skip whitespace-only chunks, and join consecutive nonempty
chunks with a single pending space. -/
def handle_data (st : HState) (data : String) : HState :=
  if data == "" then st
  else if st.in_pre then appendChunk st data
  else
    let text := pySplitJoin data
    if text == "" then st
    else
      let st1 :=
        if st.pending_space then { appendChunk st " " with pending_space := false }
        else st
      { appendChunk st1 text with pending_space := true }

/-- Dispatch one parser event to its handler. -/
def handleEvent (st : HState) : HEvent → HState
  | HEvent.text s => handle_data st s
  | HEvent.startTag t => handle_starttag st t
  | HEvent.endTag t => handle_endtag st t

/-- `HtmlToText.get_text`: `"".join(self._chunks).strip()`. -/
def getText (st : HState) : String := pyStrip (String.join st.chunks)

/-- `html_to_text(html)`: feed the fragment and read the text. -/
def html_to_text (h : String) : String :=
  getText ((tokenize h).foldl handleEvent initState)

theorem mk_toList_eq (s : String) : String.mk s.toList = s := by
  cases s
  rfl

theorem lookupFile_setFile (files : Files) (name : String) (c : FileContent) :
    lookupFile (setFile files name c) name = some c := by
  induction files with
  | nil => simp [setFile, lookupFile, List.find?]
  | cons p rest ih =>
    obtain ⟨n, v⟩ := p
    by_cases h : (n == name) = true
    · simp [setFile, lookupFile, List.find?, h]
    · simp only [setFile, h, Bool.false_eq_true, if_false]
      simpa [lookupFile, List.find?, h] using ih

theorem contains_iff_mem (l : List Char) (a : Char) : l.contains a = true ↔ a ∈ l := by
  induction l with
  | nil => simp [List.contains, List.elem]
  | cons b rest ih =>
    by_cases h : a = b
    · subst h; simp [List.contains, List.elem]
    · have hb : (a == b) = false := by simp [h]
      simp [List.contains, List.elem, hb, h]

theorem dropWhile_eq_self_of_no (p : Char → Bool) (l : List Char)
    (h : ∀ c ∈ l, p c = false) : l.dropWhile p = l := by
  cases l with
  | nil => rfl
  | cons c rest => simp [List.dropWhile, h c (List.mem_cons_self c rest)]

theorem pyStripL_eq_self_of_no_space (l : List Char)
    (h : ∀ c ∈ l, pyIsSpace c = false) : pyStripL l = l := by
  unfold pyStripL
  rw [dropWhile_eq_self_of_no _ _ h,
    dropWhile_eq_self_of_no _ _ (fun c hc => h c (List.mem_reverse.mp hc)),
    List.reverse_reverse]

theorem pyWordsGo_wf (l cur : List Char) (hcur : ∀ c ∈ cur, pyIsSpace c = false) :
    ∀ w ∈ pyWordsGo cur l, w ≠ [] ∧ ∀ c ∈ w, pyIsSpace c = false := by
  induction l generalizing cur with
  | nil =>
    intro w hw
    by_cases hc : cur.isEmpty
    · simp [pyWordsGo, hc] at hw
    · simp [pyWordsGo, hc] at hw
      subst hw
      refine ⟨by simpa using (by simpa using hc : cur ≠ []), ?_⟩
      intro c hcmem
      exact hcur c (List.mem_reverse.mp hcmem)
  | cons a rest ih =>
    intro w hw
    by_cases ha : pyIsSpace a
    · by_cases hc : cur.isEmpty
      · simp only [pyWordsGo, ha, if_true, hc] at hw
        exact ih [] (by simp) w hw
      · simp only [pyWordsGo, ha, if_true, hc, Bool.false_eq_true, if_false,
          List.mem_cons] at hw
        rcases hw with hw | hw
        · subst hw
          refine ⟨by simpa using (by simpa using hc : cur ≠ []), ?_⟩
          intro c hcmem
          exact hcur c (List.mem_reverse.mp hcmem)
        · exact ih [] (by simp) w hw
    · simp only [pyWordsGo, ha, Bool.false_eq_true, if_false] at hw
      refine ih (a :: cur) ?_ w hw
      intro c hcmem
      rcases List.mem_cons.mp hcmem with h | h
      · subst h; simpa using ha
      · exact hcur c h

theorem mem_of_getLast?_eq (l : List Char) (c : Char) (h : l.getLast? = some c) :
    c ∈ l := by
  have hne : l ≠ [] := by
    intro he
    subst he
    simp at h
  rw [List.getLast?_eq_getLast_of_ne_nil hne] at h
  injection h with h
  rw [← h]
  exact List.getLast_mem hne

theorem joinL_head_no_space (ws : List (List Char))
    (hwf : ∀ w ∈ ws, w ≠ [] ∧ ∀ c ∈ w, pyIsSpace c = false) :
    ∀ c, (joinL ws).head? = some c → pyIsSpace c = false := by
  intro c hc
  cases ws with
  | nil => simp [joinL] at hc
  | cons w rest =>
    obtain ⟨hne, hchars⟩ := hwf w (List.mem_cons_self w rest)
    obtain ⟨a, t, hw⟩ := List.exists_cons_of_ne_nil hne
    subst hw
    have ha : (joinL ((a :: t) :: rest)).head? = some a := by
      cases rest with
      | nil => rfl
      | cons v rest' => rfl
    rw [ha] at hc
    injection hc with hc
    rw [← hc]
    exact hchars a (List.mem_cons_self a t)

theorem joinL_ne_nil (ws : List (List Char))
    (hne : ws ≠ []) (hwf : ∀ w ∈ ws, w ≠ [] ∧ ∀ c ∈ w, pyIsSpace c = false) :
    joinL ws ≠ [] := by
  match ws with
  | [] => exact absurd rfl hne
  | w :: rest =>
    obtain ⟨hwne, _⟩ := hwf w (List.mem_cons_self w rest)
    obtain ⟨a, t, rfl⟩ := List.exists_cons_of_ne_nil hwne
    match rest with
    | [] => simp [joinL]
    | v :: rest' => simp [joinL]

theorem joinL_getLast_no_space (ws : List (List Char))
    (hwf : ∀ w ∈ ws, w ≠ [] ∧ ∀ c ∈ w, pyIsSpace c = false) :
    ∀ c, (joinL ws).getLast? = some c → pyIsSpace c = false := by
  induction ws with
  | nil =>
    intro c hc
    simp [joinL] at hc
  | cons w rest ih =>
    intro c hc
    match rest with
    | [] =>
      simp only [joinL] at hc
      obtain ⟨_, hchars⟩ := hwf w (List.mem_cons_self w [])
      exact hchars c (mem_of_getLast?_eq w c hc)
    | v :: rest' =>
      have hwf' : ∀ u ∈ v :: rest', u ≠ [] ∧ ∀ d ∈ u, pyIsSpace d = false :=
        fun u hu => hwf u (List.mem_cons_of_mem w hu)
      have hjoin_ne : joinL (v :: rest') ≠ [] :=
        joinL_ne_nil (v :: rest') (by simp) hwf'
      obtain ⟨e, t, het⟩ := List.exists_cons_of_ne_nil hjoin_ne
      simp only [joinL] at hc
      rw [List.getLast?_append_cons, het, List.getLast?_cons_cons, ← het] at hc
      exact ih hwf' c hc

theorem pyStripL_of_ends (l : List Char)
    (hh : ∀ c, l.head? = some c → pyIsSpace c = false)
    (hl : ∀ c, l.getLast? = some c → pyIsSpace c = false) :
    pyStripL l = l := by
  match hml : l with
  | [] => rfl
  | a :: t =>
    have ha : pyIsSpace a = false := hh a rfl
    unfold pyStripL
    rw [List.dropWhile_cons, ha]
    simp only [Bool.false_eq_true, if_false]
    have hrev : (a :: t).reverse ≠ [] := by simp
    obtain ⟨d, r, hdr⟩ := List.exists_cons_of_ne_nil hrev
    have hd : (a :: t).getLast? = some d := by
      rw [← List.head?_reverse, hdr]
      rfl
    have hdns : pyIsSpace d = false := hl d hd
    rw [hdr, List.dropWhile_cons, hdns]
    simp only [Bool.false_eq_true, if_false]
    rw [← hdr, List.reverse_reverse]

theorem pyStripL_joinL_pyWords (l : List Char) :
    pyStripL (joinL (pyWords l)) = joinL (pyWords l) := by
  have hwf : ∀ w ∈ pyWords l, w ≠ [] ∧ ∀ c ∈ w, pyIsSpace c = false :=
    pyWordsGo_wf l [] (by simp)
  exact pyStripL_of_ends _ (joinL_head_no_space _ hwf) (joinL_getLast_no_space _ hwf)

theorem tokGo_no_lt (l : List Char) :
    ∀ (acc : List Char) (fuel : Nat), l.length < fuel →
      (∀ c ∈ l, c ≠ '<') → tokGo fuel acc l = flushAcc (l.reverse ++ acc) := by
  induction l with
  | nil =>
    intro acc fuel hf _
    cases fuel with
    | zero => simp at hf
    | succ m => simp [tokGo]
  | cons c rest ih =>
    intro acc fuel hf hne
    cases fuel with
    | zero => simp at hf
    | succ m =>
      have hc : (c == '<') = false := by
        simpa using hne c (List.mem_cons_self c rest)
      simp only [tokGo, hc, Bool.false_eq_true, if_false]
      rw [ih (c :: acc) m (by simpa using Nat.lt_of_succ_lt_succ hf)
        (fun d hd => hne d (List.mem_cons_of_mem c hd))]
      simp [List.append_assoc]

theorem handle_data_init (s : String) (hne : s ≠ "") :
    handle_data initState s =
      (if pySplitJoin s == "" then initState
       else { chunks := [pySplitJoin s], in_pre := false, pending_space := true }) := by
  have hsne : (s == "") = false := by simpa using hne
  unfold handle_data initState
  simp [hsne, appendChunk]

theorem html_to_text_plain (s : String) (hs : ∀ c ∈ s.toList, c ≠ '<') :
    html_to_text s = pySplitJoin s := by
  have htok : tokenize s = flushAcc s.toList.reverse := by
    unfold tokenize
    rw [tokGo_no_lt s.toList [] (s.toList.length + 1) (by omega) hs]
    simp
  cases hl : s.toList with
  | nil =>
    have hs0 : s = "" := by
      have := congrArg String.mk hl
      rwa [mk_toList_eq] at this
    subst hs0
    rfl
  | cons a t =>
    have hsne : s ≠ "" := by
      intro h
      subst h
      simp at hl
    have hrevne : s.toList.reverse.isEmpty = false := by
      rw [hl]
      simp
    have htok2 : tokenize s = [HEvent.text s] := by
      rw [htok]
      unfold flushAcc
      rw [if_neg (by simp [List.isEmpty_iff, List.reverse_eq_nil_iff,
          show s.data = a :: t from hl]),
        List.reverse_reverse, mk_toList_eq]
    rw [html_to_text, htok2]
    show getText (handle_data initState s) = pySplitJoin s
    rw [handle_data_init s hsne]
    by_cases htext : pySplitJoin s = ""
    · rw [if_pos (by simpa using htext), htext]
      rfl
    · rw [if_neg (by simpa using htext)]
      show pyStrip (String.join [pySplitJoin s]) = pySplitJoin s
      rw [show String.join [pySplitJoin s] = pySplitJoin s from rfl]
      show String.mk (pyStripL (joinL (pyWords s.toList))) = pySplitJoin s
      rw [pyStripL_joinL_pyWords]
      rfl

theorem fetchLoop_snapshot_ne_none (entries : List Json) (tot : Nat → Int) :
    ∀ (fuel k : Nat) (acc : List Json), 100 * k ≤ entries.length + 100 →
      entries.length + 200 ≤ 100 * (fuel + k) →
      fetchLoop (snapshotPages entries tot) fuel k acc ≠ none := by
  intro fuel
  induction fuel with
  | zero =>
    intro k acc h1 h2
    exfalso
    omega
  | succ m ih =>
    intro k acc h1 h2
    simp only [fetchLoop, snapshotPages, post_graphql]
    split
    · simp
    · rename_i hcond
      push_neg at hcond
      obtain ⟨-, hitems⟩ := hcond
      have hdropne : entries.drop (100 * k) ≠ [] := by
        intro hdrop
        exact hitems (by simp [hdrop])
      have hklt : 100 * k < entries.length := by
        by_contra hge
        exact hdropne (List.drop_eq_nil_iff.mpr (by omega))
      cases hrec : fetchLoop (snapshotPages entries tot) m (k + 1)
          (acc ++ (entries.drop (100 * k)).take 100) with
      | none =>
        exact absurd hrec (ih (k + 1) _ (by omega) (by omega))
      | some r =>
        simp [hrec]

/-- Claim C3, amended: for every cache key and TTL, `load_cache` never
raises on a record that is absent, fails JSON parsing, or parses to a
JSON object — a parse failure is a miss, a non-numeric stored timestamp
is a miss, and an expired timestamp is a miss; the original claim's
further case of a parsed top-level value that is not an object is
excluded, because there `payload.get` raises `AttributeError` (see the
counterexample). -/
theorem c3_load_cache_malformed_is_miss (files : Files) (name : String) (ttl now : Int) :
    (lookupFile files name = none → load_cache files name ttl now = Except.ok Json.null) ∧
    (lookupFile files name = some FileContent.badJson →
      load_cache files name ttl now = Except.ok Json.null) ∧
    (∀ fields, lookupFile files name = some (FileContent.json (Json.obj fields)) →
      load_cache files name ttl now =
        (if isNumTimestamp (pyGet fields "fetched_at") then
          if now - tsVal (pyGet fields "fetched_at") > ttl then Except.ok Json.null
          else Except.ok (pyGet fields "data")
        else Except.ok Json.null)) := by
  refine ⟨fun h => by simp [load_cache, h], fun h => by simp [load_cache, h], ?_⟩
  intro fields h
  simp [load_cache, h]

/-- Claim C3, witness: a missing record is reported as a miss, through
the amended theorem at a concrete input. -/
theorem c3_load_cache_malformed_is_miss_witness :
    load_cache [] "problem_list.json" LIST_TTL_SECONDS 0 = Except.ok Json.null :=
  (c3_load_cache_malformed_is_miss [] "problem_list.json" LIST_TTL_SECONDS 0).1 rfl

/-- Claim C3, counterexample: a record whose contents parse as the JSON
array `[]` — valid JSON of unexpected shape — makes `load_cache` raise
`AttributeError` at `payload.get("fetched_at")` instead of reporting a
miss. -/
theorem c3_counterexample :
    load_cache [("problem_list.json", FileContent.json (Json.arr []))]
      "problem_list.json" LIST_TTL_SECONDS 0 = Except.error PyErr.attributeError ∧
    (Except.error PyErr.attributeError : Except PyErr Json) ≠ Except.ok Json.null :=
  ⟨rfl, by simp⟩

/-- Claim C8 (confirmed): for every key, TTL and stored JSON value, a
`load_cache` whose elapsed time since the `save_cache` is within the TTL
window returns exactly the saved value; the save-then-load round trip is
lossless. -/
theorem c8_save_load_roundtrip (files : Files) (name : String) (data : Json)
    (now later ttl : Int) (h : later - now ≤ ttl) :
    load_cache (save_cache files name data now) name ttl later = Except.ok data := by
  unfold load_cache save_cache
  simp only [lookupFile_setFile]
  rw [show pyGet [("fetched_at", Json.num now), ("data", data)] "fetched_at" =
    Json.num now from rfl]
  rw [if_pos (show isNumTimestamp (Json.num now) = true from rfl)]
  rw [if_neg (by simp only [tsVal]; omega)]
  rw [show pyGet [("fetched_at", Json.num now), ("data", data)] "data" = data from rfl]

/-- Claim C8, witness: a concrete save-then-load two seconds later with
a five-second TTL returns the saved value. -/
theorem c8_save_load_roundtrip_witness :
    load_cache (save_cache [] "question_two-sum.json" (Json.str "v") 10)
      "question_two-sum.json" 5 12 = Except.ok (Json.str "v") :=
  c8_save_load_roundtrip [] "question_two-sum.json" (Json.str "v") 10 12 5 (by decide)

/-- Claim C4 (confirmed): for every catalog and every all-digit query,
`resolve_slug` returns the slug of the first catalog entry whose
`questionFrontendId` equals the query (`find_by_id` scans in catalog
order), and returns the not-found result when no entry matches — it
never falls through to fuzzy matching. -/
theorem c4_numeric_query (query : String) (items : List Entry)
    (hq : is_number query = true) :
    resolve_slug query items =
      (match find_by_id items query with
       | some item => (some item.titleSlug, none)
       | none => (none, none)) := by
  unfold resolve_slug
  rw [if_pos hq]

/-- Claim C4, witness: the query `"1"` resolves to the slug of the entry
with frontend id `"1"`, and the query `"42"` with no matching frontend
id yields not-found on the same catalog. -/
theorem c4_numeric_query_witness :
    resolve_slug "1" [⟨"1", "1", "Two Sum", "two-sum", "Easy", false⟩] =
      (some "two-sum", none) ∧
    resolve_slug "42" [⟨"1", "1", "Two Sum", "two-sum", "Easy", false⟩] =
      (none, none) :=
  ⟨(c4_numeric_query "1" _ (by decide)).trans (by decide),
   (c4_numeric_query "42" _ (by decide)).trans (by decide)⟩

/-- Claim C5 (confirmed): for every catalog and every query containing a
hyphen and no whitespace at all, `resolve_slug` returns the query itself
as the unique slug — `query.strip()` is the identity here — without
consulting the catalog (the catalog is universally quantified). -/
theorem c5_hyphen_no_whitespace (query : String) (items : List Entry)
    (hh : '-' ∈ query.toList)
    (hw : ∀ c ∈ query.toList, pyIsSpace c = false) :
    resolve_slug query items = (some query, none) := by
  have hall : query.toList.all Char.isDigit = false := by
    cases hall : query.toList.all Char.isDigit with
    | false => rfl
    | true =>
      have := List.all_eq_true.mp hall '-' hh
      simp at this
  have hnum : is_number query = false := by
    unfold is_number
    rw [hall, Bool.and_false]
  have hnospace : ' ' ∉ query.toList := by
    intro hmem
    have := hw ' ' hmem
    simp [pyIsSpace] at this
  have hstrip : pyStrip query = query := by
    unfold pyStrip
    rw [pyStripL_eq_self_of_no_space _ hw, mk_toList_eq]
  have hcont : query.toList.contains '-' = true := (contains_iff_mem _ _).mpr hh
  have hsp : query.toList.contains ' ' = false := by
    cases hc : query.toList.contains ' ' with
    | false => rfl
    | true => exact absurd ((contains_iff_mem _ _).mp hc) hnospace
  have hcond : (query.toList.contains '-' && !query.toList.contains ' ') = true := by
    rw [hcont, hsp]
    rfl
  unfold resolve_slug
  rw [if_neg (by simp [hnum]), if_pos hcond, hstrip]

/-- Claim C5, witness: `"two-sum"` resolves to itself on the empty
catalog. -/
theorem c5_hyphen_no_whitespace_witness :
    resolve_slug "two-sum" [] = (some "two-sum", none) :=
  c5_hyphen_no_whitespace "two-sum" [] (by decide) (by decide)

/-- Claim C6, amended: for every catalog and every query that is neither
all digits nor in the literal-slug branch — which the code enters when
the query contains a hyphen and no space character, so whitespace other
than a space does not disqualify it — `resolve_slug` dispatches on
`find_matches`: no match is not-found, one match is that entry's slug,
several matches are the ambiguous set in catalog order. -/
theorem c6_fuzzy_match (query : String) (items : List Entry)
    (h1 : is_number query = false)
    (h2 : ¬('-' ∈ query.toList ∧ ¬ ' ' ∈ query.toList)) :
    resolve_slug query items =
      (match find_matches items query with
       | [] => (none, none)
       | [m] => (some m.titleSlug, none)
       | ms => (none, some ms)) := by
  have hbool : (query.toList.contains '-' && !query.toList.contains ' ') = false := by
    cases hm : query.toList.contains '-' with
    | false => rfl
    | true =>
      have hmem := (contains_iff_mem _ _).mp hm
      have hspmem : ' ' ∈ query.toList := by
        by_contra hnot
        exact h2 ⟨hmem, hnot⟩
      rw [(contains_iff_mem _ _).mpr hspmem]
      rfl
  unfold resolve_slug
  rw [if_neg (by simp [h1]), if_neg (by rw [hbool]; simp)]

/-- Claim C6, witness: the query `"two sum"` with exactly one entry
whose normalized title contains it resolves to that entry's slug via the
fuzzy branch. -/
theorem c6_fuzzy_match_witness :
    resolve_slug "two sum" [⟨"1", "1", "Two Sum", "two-sum", "Easy", false⟩] =
      (some "two-sum", none) :=
  (c6_fuzzy_match "two sum" _ (by decide) (by decide)).trans (by decide)

/-- Claim C6, counterexample: the query `"a-b\tc"` contains a hyphen and
a tab, so it is not a hyphenated whitespace-free slug and the claim
demands fuzzy matching (not-found on the empty catalog); the code only
tests for a space character, takes the literal-slug branch, and returns
the query itself. -/
theorem c6_counterexample :
    is_number "a-b\tc" = false ∧
    ('-' ∈ "a-b\tc".toList ∧ '\t' ∈ "a-b\tc".toList ∧ pyIsSpace '\t' = true) ∧
    resolve_slug "a-b\tc" [] = (some "a-b\tc", none) ∧
    resolve_slug "a-b\tc" [] ≠ (none, none) := by decide

/-- Claim C2, amended: re-converting the tag-free plain-text output of
`html_to_text` returns it unchanged exactly when that output is already
invariant under whitespace normalization (`" ".join(s.split())`), i.e.
contains only single interior spaces; outputs with structural newlines
are collapsed on re-conversion, so idempotence fails in general (see the
counterexample).  The hypotheses keep the output inside the markup-free
fragment the tokenizer embedding covers: no tag opener and no character
reference ampersand. -/
theorem c2_idempotence_iff (h : String)
    (hlt : ∀ c ∈ (html_to_text h).toList, c ≠ '<')
    (hamp : ∀ c ∈ (html_to_text h).toList, c ≠ '&') :
    (html_to_text (html_to_text h) = html_to_text h ↔
      pySplitJoin (html_to_text h) = html_to_text h) := by
  rw [html_to_text_plain (html_to_text h) hlt]

/-- Claim C2, witness: the single-paragraph fragment `"<p>a b</p>"`
converts to `"a b"`, whose re-conversion is unchanged. -/
theorem c2_idempotence_iff_witness :
    html_to_text (html_to_text "<p>a b</p>") = html_to_text "<p>a b</p>" :=
  (c2_idempotence_iff "<p>a b</p>" (by decide) (by decide)).mpr (by decide)

/-- Claim C2, counterexample: `"<p>a</p><p>b</p>"` converts to
`"a\nb"`, and re-converting that collapses the newline to a space,
giving `"a b"` — `convert (convert h)` differs from `convert h`. -/
theorem c2_counterexample :
    html_to_text "<p>a</p><p>b</p>" = "a\nb" ∧
    html_to_text (html_to_text "<p>a</p><p>b</p>") = "a b" ∧
    html_to_text (html_to_text "<p>a</p><p>b</p>") ≠ html_to_text "<p>a</p><p>b</p>" :=
  ⟨by decide, by decide, by decide⟩

/-- Claim C7, amended: when a fresh parseable record exists whose stored
data is Python-truthy, `fetch_problem_list` and `fetch_question` return
the cached value with zero GraphQL and zero REST requests and the cache
untouched; the truthiness condition is the code's `if cached:` test, so
a cached falsy value such as the empty list is refetched instead (see
the counterexample). -/
theorem c7_cache_hit (files : Files) (now : Int)
    (pages : Nat → GqlResp (Int × List Json)) (rest : Except PyErr (List RestEntry))
    (fuel : Nat) (resp : GqlResp Json) (slug : String) (j j' : Json)
    (hl : load_cache files "problem_list.json" LIST_TTL_SECONDS now = Except.ok j)
    (hj : jsonTruthy j = true)
    (hq : load_cache files ("question_" ++ slug ++ ".json") QUESTION_TTL_SECONDS now =
      Except.ok j')
    (hj' : jsonTruthy j' = true) :
    fetch_problem_list files now pages rest fuel = some (Except.ok j, 0, 0, files) ∧
    fetch_question files now resp slug = (Except.ok j', 0, files) := by
  constructor
  · simp only [fetch_problem_list, hl, hj, if_true]
  · simp only [fetch_question, hq, hj', if_true]

/-- Claim C7, witness: with fresh truthy records for both keys, both
fetchers return the cached values, issue no request, and leave the
cache unchanged. -/
theorem c7_cache_hit_witness :
    fetch_problem_list
        [("problem_list.json", FileContent.json (Json.obj
            [("fetched_at", Json.num 0), ("data", Json.num 1)])),
         ("question_two-sum.json", FileContent.json (Json.obj
            [("fetched_at", Json.num 0), ("data", Json.num 1)]))]
        0 (fun _ => GqlResp.transportFail) (Except.error PyErr.urlError) 3 =
      some (Except.ok (Json.num 1), 0, 0,
        [("problem_list.json", FileContent.json (Json.obj
            [("fetched_at", Json.num 0), ("data", Json.num 1)])),
         ("question_two-sum.json", FileContent.json (Json.obj
            [("fetched_at", Json.num 0), ("data", Json.num 1)]))]) ∧
    fetch_question
        [("problem_list.json", FileContent.json (Json.obj
            [("fetched_at", Json.num 0), ("data", Json.num 1)])),
         ("question_two-sum.json", FileContent.json (Json.obj
            [("fetched_at", Json.num 0), ("data", Json.num 1)]))]
        0 GqlResp.transportFail "two-sum" =
      (Except.ok (Json.num 1), 0,
        [("problem_list.json", FileContent.json (Json.obj
            [("fetched_at", Json.num 0), ("data", Json.num 1)])),
         ("question_two-sum.json", FileContent.json (Json.obj
            [("fetched_at", Json.num 0), ("data", Json.num 1)]))]) :=
  c7_cache_hit _ 0 _ _ 3 GqlResp.transportFail "two-sum" (Json.num 1) (Json.num 1)
    rfl rfl rfl rfl

/-- Claim C7, counterexample: a fresh parseable record exists whose
stored catalog is the empty list; the claim demands the cached value be
returned with no network request, but the code's `if cached:` truthiness
test fails on `[]` and one GraphQL page request is issued. -/
theorem c7_counterexample :
    load_cache [("problem_list.json", FileContent.json (Json.obj
        [("fetched_at", Json.num 0), ("data", Json.arr [])]))]
      "problem_list.json" LIST_TTL_SECONDS 0 = Except.ok (Json.arr []) ∧
    fetch_problem_list [("problem_list.json", FileContent.json (Json.obj
        [("fetched_at", Json.num 0), ("data", Json.arr [])]))]
      0 (fun _ => GqlResp.ok (0, [])) (Except.error PyErr.urlError) 3 =
      some (Except.ok (Json.arr []), 1, 0,
        [("problem_list.json", FileContent.json (Json.obj
          [("fetched_at", Json.num 0), ("data", Json.arr [])]))]) ∧
    ¬ fetch_problem_list [("problem_list.json", FileContent.json (Json.obj
        [("fetched_at", Json.num 0), ("data", Json.arr [])]))]
      0 (fun _ => GqlResp.ok (0, [])) (Except.error PyErr.urlError) 3 =
      some (Except.ok (Json.arr []), 0, 0,
        [("problem_list.json", FileContent.json (Json.obj
          [("fetched_at", Json.num 0), ("data", Json.arr [])]))]) := by
  refine ⟨rfl, rfl, ?_⟩
  intro hco
  injection hco with h1
  injection h1 with h2 h3
  injection h3 with h4 h5
  exact one_ne_zero h4

/-- Claim C1, amended: on a cache miss, when the paginated GraphQL path
fails with an error surfaced as `RuntimeError` — a non-2xx HTTP status
or an error payload, per `post_graphql` — `fetch_problem_list` consults
the REST fallback once and returns its outcome instead of the primary
failure; a transport-level network error or timeout (`URLError`) is not
caught and propagates without any fallback (see the counterexample). -/
theorem c1_fallback_amended (files : Files) (now : Int)
    (pages : Nat → GqlResp (Int × List Json)) (rest : Except PyErr (List RestEntry))
    (fuel n : Nat) (j : Json)
    (hc : load_cache files "problem_list.json" LIST_TTL_SECONDS now = Except.ok j)
    (ht : jsonTruthy j = false)
    (hl : fetchLoop pages fuel 0 [] = some (Except.error PyErr.runtimeError, n)) :
    fetch_problem_list files now pages rest fuel =
      (match fetch_problem_list_rest rest with
       | Except.error e => some (Except.error e, n, 1, files)
       | Except.ok items =>
         some (Except.ok (Json.arr items), n, 1,
           save_cache files "problem_list.json" (Json.arr items) now)) := by
  simp only [fetch_problem_list, hc, ht, Bool.false_eq_true, if_false, hl]

/-- Claim C1, witness: a 403 response on the first page (re-raised as
`RuntimeError`) routes to the REST fallback, whose empty snapshot is
normalized, cached and returned. -/
theorem c1_fallback_amended_witness :
    fetch_problem_list [] 0 (fun _ => GqlResp.httpError 403 "forbidden") (Except.ok []) 3 =
      some (Except.ok (Json.arr []), 1, 1,
        save_cache [] "problem_list.json" (Json.arr []) 0) :=
  (c1_fallback_amended [] 0 (fun _ => GqlResp.httpError 403 "forbidden") (Except.ok []) 3 1
    Json.null rfl rfl rfl).trans (by rfl)

/-- Claim C1, counterexample: on a cache miss with a transport-level
network failure on the first page and a REST source that would succeed,
`fetch_problem_list` surfaces the primary `URLError` with zero REST
requests — the claim demands the REST fallback be used instead. -/
theorem c1_counterexample :
    fetch_problem_list [] 0 (fun _ => GqlResp.transportFail)
      (Except.ok [⟨"13", "13", "Roman to Integer", "roman-to-integer", 1, false⟩]) 3 =
      some (Except.error PyErr.urlError, 1, 0, []) ∧
    ¬ fetch_problem_list [] 0 (fun _ => GqlResp.transportFail)
      (Except.ok [⟨"13", "13", "Roman to Integer", "roman-to-integer", 1, false⟩]) 3 =
      some (Except.ok (Json.arr [rest_normalize
          ⟨"13", "13", "Roman to Integer", "roman-to-integer", 1, false⟩]), 1, 1,
        save_cache [] "problem_list.json" (Json.arr [rest_normalize
          ⟨"13", "13", "Roman to Integer", "roman-to-integer", 1, false⟩]) 0) := by
  refine ⟨rfl, ?_⟩
  intro hco
  injection hco with h1
  injection h1 with h2 h3
  exact Except.noConfusion h2

/-- Claim C10 (confirmed): whenever `fetch_problem_list` ends in a fetch
error (primary and fallback both failing, or the primary failing
without a fallback) or `fetch_question` ends in a fetch error, the final
cache state equals the initial one — no record is written or
overwritten; a write happens only on a fully successful fetch. -/
theorem c10_no_write_on_failure (files : Files) (now : Int)
    (pages : Nat → GqlResp (Int × List Json)) (rest : Except PyErr (List RestEntry))
    (fuel : Nat) (resp : GqlResp Json) (slug : String) :
    (∀ e n m files2, fetch_problem_list files now pages rest fuel =
        some (Except.error e, n, m, files2) → files2 = files) ∧
    (∀ e n files2, fetch_question files now resp slug = (Except.error e, n, files2) →
      files2 = files) := by
  constructor
  · intro e n m files2 hf
    unfold fetch_problem_list at hf
    repeat' split at hf
    all_goals simp_all
  · intro e n files2 hf
    simp only [fetch_question] at hf
    repeat' split at hf
    all_goals simp_all

/-- Claim C10, witness: a transport failure on both the catalog page
and the detail query leaves a cache holding one valid record exactly as
it was. -/
theorem c10_no_write_on_failure_witness :
    [("problem_list.json", FileContent.json (Json.obj
        [("fetched_at", Json.num 0), ("data", Json.null)]))] =
      ([("problem_list.json", FileContent.json (Json.obj
        [("fetched_at", Json.num 0), ("data", Json.null)]))] : Files) :=
  (c10_no_write_on_failure
    [("problem_list.json", FileContent.json (Json.obj
      [("fetched_at", Json.num 0), ("data", Json.null)]))]
    0 (fun _ => GqlResp.transportFail) (Except.error PyErr.urlError)
    3 GqlResp.transportFail "two-sum").1 PyErr.urlError 1 0 _ rfl

/-- Claim C9 (confirmed): for every finite server snapshot and every —
possibly misreported, per-page — reported total, the pagination loop
terminates within `length + 2` iterations; moreover it stops with
exactly the accumulated entries as soon as the accumulated count
reaches the reported total or a page returns no entries, and it issues
a further page request exactly when the stop condition fails. -/
theorem c9_pagination_terminates (entries : List Json) (tot : Nat → Int) :
    (fetchLoop (snapshotPages entries tot) (entries.length + 2) 0 [] ≠ none) ∧
    (∀ (pages : Nat → GqlResp (Int × List Json)) (fuel k : Nat) (acc : List Json)
        (total : Int) (items : List Json),
      pages k = GqlResp.ok (total, items) →
      (total ≤ ((acc ++ items).length : Int) ∨ items = []) →
      fetchLoop pages (fuel + 1) k acc = some (Except.ok (acc ++ items), 1)) ∧
    (∀ (pages : Nat → GqlResp (Int × List Json)) (fuel k : Nat) (acc : List Json)
        (total : Int) (items : List Json),
      pages k = GqlResp.ok (total, items) →
      ¬(total ≤ ((acc ++ items).length : Int) ∨ items = []) →
      fetchLoop pages (fuel + 1) k acc =
        (fetchLoop pages fuel (k + 1) (acc ++ items)).map (fun r => (r.1, r.2 + 1))) := by
  refine ⟨?_, ?_, ?_⟩
  · exact fetchLoop_snapshot_ne_none entries tot (entries.length + 2) 0 [] (by omega) (by omega)
  · intro pages fuel k acc total items hp hstop
    have hcond : total ≤ ((acc ++ items).length : Int) ∨ items.isEmpty = true := by
      rcases hstop with hs | hs
      · exact Or.inl hs
      · exact Or.inr (List.isEmpty_iff.mpr hs)
    simp only [fetchLoop, hp, post_graphql]
    rw [if_pos hcond]
  · intro pages fuel k acc total items hp hnstop
    have hcond : ¬(total ≤ ((acc ++ items).length : Int) ∨ items.isEmpty = true) := by
      intro hcon
      apply hnstop
      rcases hcon with hs | hs
      · exact Or.inl hs
      · exact Or.inr (List.isEmpty_iff.mp hs)
    simp only [fetchLoop, hp, post_graphql]
    rw [if_neg hcond]
    cases hrec : fetchLoop pages fuel (k + 1) (acc ++ items) with
    | none => rfl
    | some r => rfl

/-- Claim C9, witness: a one-entry snapshot with total misreported as 5
still terminates, and a loop whose first page already satisfies the
stop condition stops after one request. -/
theorem c9_pagination_terminates_witness :
    fetchLoop (snapshotPages [Json.null] (fun _ => 5)) ([Json.null].length + 2) 0 [] ≠ none ∧
    fetchLoop (fun _ => GqlResp.ok (0, [])) 1 0 [] =
      some (Except.ok ([] : List Json), 1) :=
  ⟨(c9_pagination_terminates [Json.null] (fun _ => 5)).1,
   (c9_pagination_terminates [] (fun _ => 0)).2.1 (fun _ => GqlResp.ok (0, []))
     0 0 [] 0 [] rfl (Or.inr rfl)⟩
